import Mathlib

/-!
Verification of the dataset-preparation script
`examples/classify/semi_supervised/img/scripts/create_datasets.py`.

The script is embedded shallowly:

* numpy arrays are nested lists of `Nat` (byte values); the semantics of
  `np.reshape` (row-major re-indexing) and `np.transpose` (axis permutation)
  are spelled out index-wise, exactly as numpy documents them;
* the filesystem is an association list from path strings to file contents;
  `tf.io.TFRecordWriter` writing a full record stream is one `fsWrite`;
* downloads (`urlretrieve`, tar members, `.mat` contents, the local image
  folders) are parameters of the loader functions: their bytes are external
  inputs of the program;
* the `assert` in `_save_as_tfrecord` is an `Except.error` result that leaves
  the filesystem untouched (in the source the assert precedes the opening of
  the writer).
-/

namespace CreateDatasets

/-- A raw image: height-major nested list of rows, each row a list of pixels,
each pixel a list of channel byte values (the `(H, W, C)` layout). -/
abbrev RawImage := List (List (List Nat))

/-- One tf.train.Example record as written by `_save_as_tfrecord`:
an `image` bytes feature and an int64 `label` feature. -/
structure Record where
  image : List Nat
  label : Int
deriving DecidableEq

/-- One dataset split as built by the loaders: parallel lists of encoded
image blobs and integer labels (the `{'images': ..., 'labels': ...}` dict). -/
structure SplitData where
  images : List (List Nat)
  labels : List Int
deriving DecidableEq

/-- Contents of a file in the modelled filesystem. -/
inductive FileContent where
  | records : List Record → FileContent
  | text : String → FileContent
  | bytes : List Nat → FileContent
deriving DecidableEq

/-- The filesystem: an association list from paths to contents; a later
write for a path shadows earlier ones, existence is membership. -/
abbrev FS := List (String × FileContent)

/-- `tf.io.gfile.exists`. -/
def fsExists (fs : FS) (path : String) : Bool :=
  fs.any fun e => e.1 == path

/-- Writing a whole file (the effect of a completed writer context). -/
def fsWrite (fs : FS) (path : String) (c : FileContent) : FS :=
  (path, c) :: fs

/-- `libml.data.core.DATA_DIR`, the configured output data directory
(an external configuration constant; its value is never inspected). -/
def DATA_DIR : String := "data"

/-! ## PNG encoding

`to_png` comes from `objax.util.image`, which is not part of this fragment.
Modelled from the spec: the encoder produces a losslessly compressed
single-image byte blob, so it is modelled as an injective, prefix-decodable
serialization of the `(H, W, C)` pixel array together with its decoder. -/

/-- Length-prefixed serialization of a flat byte list. -/
def encV (l : List Nat) : List Nat :=
  l.length :: l

/-- Length-prefixed serialization of a list of serializable values. -/
def encL (enc : α → List Nat) (l : List α) : List Nat :=
  l.length :: (l.map enc).flatten

/-- Modelled from the spec: `objax.util.image.to_png`, a lossless single-image
encoder (the spec calls its output "a losslessly compressed single-image byte
blob"). -/
def to_png (img : RawImage) : List Nat :=
  encL (encL encV) img

/-- Parser for `encV`: returns the decoded value and the remaining input. -/
def decV (l : List Nat) : Option (List Nat × List Nat) :=
  match l with
  | [] => none
  | n :: rest => if n ≤ rest.length then some (rest.take n, rest.drop n) else none

/-- Run a parser a fixed number of times, threading the remaining input. -/
def decTimes (dec : List Nat → Option (α × List Nat)) :
    Nat → List Nat → Option (List α × List Nat)
  | 0, l => some ([], l)
  | Nat.succ k, l =>
    (dec l).bind fun xl =>
      (decTimes dec k xl.2).bind fun xsl => some (xl.1 :: xsl.1, xsl.2)

/-- Parser for `encL`: reads the length prefix, then that many values. -/
def decL (dec : List Nat → Option (α × List Nat)) (l : List Nat) :
    Option (List α × List Nat) :=
  match l with
  | [] => none
  | n :: rest => decTimes dec n rest

/-- PNG decoding: the inverse of `to_png` (the round-trip direction the spec
guarantees for the lossless format). -/
def decode_png (blob : List Nat) : Option RawImage :=
  match decL (decL decV) blob with
  | some (img, []) => some img
  | _ => none

/-- `_encode_png`: `[to_png(images[x]) for x in trange(images.shape[0])]`. -/
def encode_png (images : List RawImage) : List (List Nat) :=
  (List.range images.length).map fun x => to_png (images.getD x [])

/-! ## numpy reshape / transpose primitives

`np.reshape` of a contiguous array is row-major re-indexing;
`np.transpose` permutes axes.  Both are written index-wise below,
following numpy's documented semantics. -/

/-- Row-major reshape of a flat buffer into shape `(C, H, W)`:
element `[c][h][w]` is flat element `(c*H + h)*W + w`. -/
def reshape3 (C H W : Nat) (flat : List Nat) : List (List (List Nat)) :=
  (List.range C).map fun c =>
    (List.range H).map fun h =>
      (List.range W).map fun w => flat.getD ((c * H + h) * W + w) 0

/-- `np.transpose(a, [1, 2, 0])` on a `(C, H, W)` array (the per-image part of
the CIFAR `[0, 2, 3, 1]` transpose): result `[h][w][c] = a[c][h][w]`. -/
def transpose_231 (C H W : Nat) (a : List (List (List Nat))) :
    List (List (List Nat)) :=
  (List.range H).map fun h =>
    (List.range W).map fun w =>
      (List.range C).map fun c => ((a.getD c []).getD h []).getD w 0

/-- `np.transpose(a, [2, 1, 0])` on a `(C, X, Y)` array (the per-image part of
the STL-10 `[0, 3, 2, 1]` transpose): result `[y][x][c] = a[c][x][y]`. -/
def transpose_321 (C X Y : Nat) (a : List (List (List Nat))) :
    List (List (List Nat)) :=
  (List.range Y).map fun y =>
    (List.range X).map fun x =>
      (List.range C).map fun c => ((a.getD c []).getD x []).getD y 0

/-- `_load_cifar10.unflatten`:
`np.transpose(images.reshape((images.shape[0], 3, 32, 32)), [0, 2, 3, 1])`.
The input is the `(N, 3072)` array, one flat row per image. -/
def cifar10_unflatten (images : List (List Nat)) : List RawImage :=
  images.map fun row => transpose_231 3 32 32 (reshape3 3 32 32 row)

/-- `_load_stl10.unflatten`:
`np.transpose(images.reshape((-1, 3, 96, 96)), [0, 3, 2, 1])`.
The `-1` reshape demands that the flat buffer length be divisible by
`3*96*96 = 27648`; otherwise numpy raises, modelled as `none`. -/
def stl10_unflatten (buf : List Nat) : Option (List RawImage) :=
  if buf.length % 27648 = 0 then
    some ((List.range (buf.length / 27648)).map fun n =>
      transpose_321 3 96 96 (reshape3 3 96 96 ((buf.drop (n * 27648)).take 27648)))
  else none

/-- Pixel access into a list of images: `imgs[n][h][w][c]` with default 0. -/
def px4 (imgs : List RawImage) (n h w c : Nat) : Nat :=
  (((imgs.getD n []).getD h []).getD w []).getD c 0

/-! ## Loaders -/

/-- `_load_svhn`'s label normalization: `labels %= 10` on the flattened
uint8 label vector (raw SVHN labels are 1..10, 10 standing for digit 0). -/
def svhn_normalize_labels (y : List Nat) : List Nat :=
  y.map fun v => v % 10

/-- What a loader associates to one returned dictionary key: an ordinary
split, the text of a `readme` entry, or the auxiliary `files` list. -/
inductive LoaderOut where
  | split : SplitData → LoaderOut
  | readmeText : String → LoaderOut
  | auxFiles : List (String × List Nat) → LoaderOut
deriving DecidableEq

/-- Look up the entry a loader returned under key `s`. -/
def lookup_split (splits : List (String × LoaderOut)) (s : String) :
    Option LoaderOut :=
  (splits.find? fun p => p.1 == s).map Prod.snd

/-- Does a split satisfy the image-count = label-count invariant?
(Non-split entries carry no counts and satisfy it vacuously.) -/
def counts_match : LoaderOut → Bool
  | .split d => d.images.length == d.labels.length
  | _ => true

/-- uint8 subtraction of 1, as in `np.frombuffer(..., dtype=np.uint8) - 1`
(wraps modulo 256), then widened to the int64 of the record. -/
def u8_sub_one (b : Nat) : Int :=
  (((b + 255) % 256 : Nat) : Int)

/-- `_load_stl10`.  Parameters are the external inputs: the five binary tar
members and the fold-indices text, all as byte lists.  Returns the split
dictionary in insertion order `train, test, unlabeled, files`; `none` when a
`(-1, 3, 96, 96)` reshape is impossible. -/
def load_stl10 (train_x train_y test_x test_y unlabeled_x fold_indices : List Nat) :
    Option (List (String × LoaderOut)) :=
  match stl10_unflatten train_x, stl10_unflatten test_x, stl10_unflatten unlabeled_x with
  | some trainImgs, some testImgs, some unlabeledImgs =>
    some [("train", .split ⟨encode_png trainImgs, train_y.map u8_sub_one⟩),
          ("test", .split ⟨encode_png testImgs, test_y.map u8_sub_one⟩),
          ("unlabeled", .split ⟨encode_png unlabeledImgs, List.replicate 100000 (0 : Int)⟩),
          ("files", .auxFiles [("stl10_fold_indices.txt", fold_indices)])]
  | _, _, _ => none

/-- `_load_voets`.  Parameters are the external inputs: the `*.jpg` filename
lists found in the `train/0`, `train/1`, `test/0`, `test/1` subfolders, and
the effect of `Image.open(...).resize((100, 100))` as a function from
filename to raw pixel array. -/
def load_voets (train0 train1 test0 test1 : List String)
    (openResize : String → RawImage) : List (String × LoaderOut) :=
  let train_imgs := train0 ++ train1
  let train_labels : List Int :=
    List.replicate train0.length (0 : Int) ++ List.replicate train1.length (1 : Int)
  let test_imgs := test0 ++ test1
  let test_labels : List Int :=
    List.replicate test0.length (0 : Int) ++ List.replicate test1.length (1 : Int)
  [("train", .split ⟨encode_png (train_imgs.map openResize), train_labels⟩),
   ("test", .split ⟨encode_png (test_imgs.map openResize), test_labels⟩)]

/-! ## Writer, installation check, driver -/

/-- The record list built by the writer loop:
`for x in trange(len(data['images']))`, one record per index. -/
def buildRecords (data : SplitData) : List Record :=
  (List.range data.images.length).map fun x =>
    { image := data.images.getD x [], label := data.labels.getD x 0 }

/-- `_save_as_tfrecord`.  The assert comes first; only when it passes is the
writer opened (creating the file) and every record written. -/
def save_as_tfrecord (data : SplitData) (filename : String) (fs : FS) :
    Except String Unit × FS :=
  if data.images.length = data.labels.length then
    (Except.ok (),
     fsWrite fs (DATA_DIR ++ "/" ++ (filename ++ ".tfrecord"))
       (FileContent.records (buildRecords data)))
  else (Except.error "assert len(images) == len(labels)", fs)

/-- `_is_installed`: loops over the checksum keys, returning `false` at the
first expected output file that does not exist. -/
def is_installed (name : String) (checksums : List String) (fs : FS) : Bool :=
  match checksums with
  | [] => true
  | subset :: rest =>
    if fsExists fs (DATA_DIR ++ "/" ++ (name ++ "-" ++ subset ++ ".tfrecord"))
    then is_installed name rest fs
    else false

/-- One entry of `CONFIGS`: the checksum keys (expected split names) and the
value the loader would return (its external inputs already applied). -/
structure Config where
  checksums : List String
  splits : List (String × LoaderOut)

/-- The body of the driver's inner loop over `datas.items()`: `readme`
entries become text files, `files` entries are written verbatim, everything
else goes through the saver (`_save_as_tfrecord`). -/
def process_split (name : String) (fs : FS) (sp : String × LoaderOut) : FS :=
  if sp.1 = "readme" then
    match sp.2 with
    | .readmeText t =>
      fsWrite fs (DATA_DIR ++ "/" ++ (name ++ "-" ++ sp.1 ++ ".txt")) (.text t)
    | _ => fs
  else if sp.1 = "files" then
    match sp.2 with
    | .auxFiles l =>
      l.foldl (fun acc fd => fsWrite acc (DATA_DIR ++ "/" ++ fd.1) (.bytes fd.2)) fs
    | _ => fs
  else
    match sp.2 with
    | .split d => (save_as_tfrecord d (name ++ "-" ++ sp.1) fs).2
    | _ => fs

/-- `CONFIGS` as it stands in the source: every entry except `voets` is
commented out, so the registry holds exactly the `voets` configuration with
checksum keys `train` and `test`.  The parameter is what `_load_voets` would
return (its external inputs applied). -/
def CONFIGS (voets_splits : List (String × LoaderOut)) : List (String × Config) :=
  [("voets", { checksums := ["train", "test"], splits := voets_splits })]

/-- `main`: requested names default to all configured; each configured
dataset not requested is skipped; an installed dataset is skipped; otherwise
its loader runs and every returned entry is dispatched.  Returns the list of
dataset names whose loader was invoked, and the final filesystem. -/
def main_model (argv : List String) (configs : List (String × Config)) (fs : FS) :
    List String × FS :=
  let subset := if argv.isEmpty then configs.map Prod.fst else argv
  configs.foldl
    (fun acc nc =>
      if nc.1 ∈ subset then
        if is_installed nc.1 nc.2.checksums acc.2 then acc
        else (acc.1 ++ [nc.1], nc.2.splits.foldl (process_split nc.1) acc.2)
      else acc)
    ([], fs)

end CreateDatasets

namespace CreateDatasets

/-! ## Helper lemmas -/

theorem getD_range_map {α : Type} (f : Nat → α) (n i : Nat) (d : α) (h : i < n) :
    ((List.range n).map f).getD i d = f i := by
  simp [List.getD_eq_getElem?_getD, List.getElem?_map, List.getElem?_range h]

theorem getD_map_lt {α β : Type} (f : α → β) (l : List α) (n : Nat) (d : β) (d2 : α)
    (h : n < l.length) : (l.map f).getD n d = f (l.getD n d2) := by
  rw [List.getD_eq_getElem?_getD, List.getElem?_map, List.getElem?_eq_getElem h,
    List.getD_eq_getElem?_getD, List.getElem?_eq_getElem h]
  rfl

theorem getD_drop_take (l : List Nat) (a k i : Nat) (hik : i < k) :
    ((l.drop a).take k).getD i 0 = l.getD (a + i) 0 := by
  rw [List.getD_eq_getElem?_getD, List.getD_eq_getElem?_getD, List.getElem?_take,
    if_pos hik, List.getElem?_drop]

theorem encode_png_eq_map (l : List RawImage) : encode_png l = l.map to_png := by
  apply List.ext_getElem
  · simp [encode_png]
  · intro i h1 h2
    simp only [encode_png, List.getElem_map, List.getElem_range]
    rw [List.getD_eq_getElem?_getD, List.getElem?_eq_getElem (by simpa [encode_png] using h1)]
    rfl

theorem encode_png_length (l : List RawImage) : (encode_png l).length = l.length := by
  simp [encode_png]

theorem decV_encV (x r : List Nat) : decV (encV x ++ r) = some (x, r) := by
  have h : x.length ≤ (x ++ r).length := by simp
  simp [decV, encV, h, List.take_left, List.drop_left]

theorem decTimes_enc {α : Type} (dec : List Nat → Option (α × List Nat)) (enc : α → List Nat)
    (hde : ∀ x r, dec (enc x ++ r) = some (x, r)) :
    ∀ (xs : List α) (r : List Nat),
      decTimes dec xs.length ((xs.map enc).flatten ++ r) = some (xs, r) := by
  intro xs
  induction xs with
  | nil => intro r; simp [decTimes]
  | cons x xs ih =>
    intro r
    simp only [List.map_cons, List.flatten_cons, List.length_cons, List.append_assoc]
    rw [decTimes, hde x ((xs.map enc).flatten ++ r), Option.some_bind, ih r,
      Option.some_bind]

theorem decL_encL {α : Type} (dec : List Nat → Option (α × List Nat)) (enc : α → List Nat)
    (hde : ∀ x r, dec (enc x ++ r) = some (x, r)) (xs : List α) (r : List Nat) :
    decL dec (encL enc xs ++ r) = some (xs, r) := by
  simp only [encL, List.cons_append, decL]
  exact decTimes_enc dec enc hde xs r

theorem decode_to_png (img : RawImage) : decode_png (to_png img) = some img := by
  have h2 : ∀ (x : List (List Nat)) (r : List Nat),
      decL decV (encL encV x ++ r) = some (x, r) :=
    fun x r => decL_encL decV encV decV_encV x r
  have h3 := decL_encL (decL decV) (encL encV) h2 img []
  rw [List.append_nil] at h3
  simp [decode_png, to_png, h3]

end CreateDatasets

namespace CreateDatasets

/-! ## Claim theorems: writer, labels, installation check, round trip -/

/-- C1: when the split's images and labels have equal length N,
`_save_as_tfrecord` writes exactly one container file holding N records in
index order, record i carrying byte payload `images[i]` in its `image` field
and integer `labels[i]` in its `label` field. -/
theorem save_as_tfrecord_writes_records (data : SplitData) (filename : String) (fs : FS)
    (h : data.images.length = data.labels.length) :
    (save_as_tfrecord data filename fs).2 =
      fsWrite fs (DATA_DIR ++ "/" ++ (filename ++ ".tfrecord"))
        (FileContent.records (buildRecords data)) ∧
    (buildRecords data).length = data.images.length ∧
    ∀ i, i < data.images.length →
      (buildRecords data).getD i ⟨[], 0⟩ =
        ⟨data.images.getD i [], data.labels.getD i 0⟩ := by
  refine ⟨by simp [save_as_tfrecord, h], by simp [buildRecords], ?_⟩
  intro i hi
  rw [buildRecords, getD_range_map _ _ _ _ hi]

/-- Witness for C1: the spec's 3-record scenario shape. -/
theorem save_as_tfrecord_writes_records_witness :
    (save_as_tfrecord ⟨[[1], [2], [3]], [0, 1, 2]⟩ "t" []).2 =
      fsWrite [] (DATA_DIR ++ "/" ++ ("t" ++ ".tfrecord"))
        (FileContent.records (buildRecords ⟨[[1], [2], [3]], [0, 1, 2]⟩)) ∧
    (buildRecords (⟨[[1], [2], [3]], [0, 1, 2]⟩ : SplitData)).length =
      (SplitData.images ⟨[[1], [2], [3]], [0, 1, 2]⟩).length ∧
    ∀ i, i < (SplitData.images ⟨[[1], [2], [3]], [0, 1, 2]⟩).length →
      (buildRecords ⟨[[1], [2], [3]], [0, 1, 2]⟩).getD i ⟨[], 0⟩ =
        ⟨(SplitData.images ⟨[[1], [2], [3]], [0, 1, 2]⟩).getD i [],
         (SplitData.labels ⟨[[1], [2], [3]], [0, 1, 2]⟩).getD i 0⟩ :=
  save_as_tfrecord_writes_records ⟨[[1], [2], [3]], [0, 1, 2]⟩ "t" [] (by decide)

/-- C5: `labels %= 10` maps raw SVHN label 10 to 0 and keeps 1..9 unchanged. -/
theorem svhn_label_remap (ys : List Nat) (h : ∀ y ∈ ys, 1 ≤ y ∧ y ≤ 10) :
    svhn_normalize_labels ys = ys.map fun y => if y = 10 then 0 else y := by
  unfold svhn_normalize_labels
  apply List.map_congr_left
  intro y hy
  rcases h y hy with ⟨h1, h2⟩
  by_cases h10 : y = 10
  · subst h10; rfl
  · rw [if_neg h10, Nat.mod_eq_of_lt (by omega)]

/-- Witness for C5. -/
theorem svhn_label_remap_witness :
    svhn_normalize_labels [10, 1, 9] = [10, 1, 9].map (fun y => if y = 10 then 0 else y) :=
  svhn_label_remap [10, 1, 9] (by decide)

theorem is_installed_eq (name : String) (cs : List String) (fs : FS) :
    is_installed name cs fs = true ↔
      ∀ s ∈ cs, fsExists fs (DATA_DIR ++ "/" ++ (name ++ "-" ++ s ++ ".tfrecord")) = true := by
  induction cs with
  | nil => simp [is_installed]
  | cons a l ih =>
    rw [is_installed]
    by_cases hx : fsExists fs (DATA_DIR ++ "/" ++ (name ++ "-" ++ a ++ ".tfrecord")) = true
    · simp [hx, ih, List.forall_mem_cons]
    · simp [hx, List.forall_mem_cons]

/-- C6: `_is_installed` returns true iff every expected split's
`name-split.tfrecord` file exists under the data directory. -/
theorem is_installed_iff_all_exist (name : String) (cs : List String) (fs : FS) :
    is_installed name cs fs = true ↔
      ∀ s ∈ cs, fsExists fs (DATA_DIR ++ "/" ++ (name ++ "-" ++ s ++ ".tfrecord")) = true :=
  is_installed_eq name cs fs

/-- Witness for C6, at a one-split instance with the file present. -/
theorem is_installed_iff_all_exist_witness :
    is_installed "d" ["train"]
      [(DATA_DIR ++ "/" ++ ("d" ++ "-" ++ "train" ++ ".tfrecord"), FileContent.records [])] = true :=
  (is_installed_iff_all_exist "d" ["train"]
      [(DATA_DIR ++ "/" ++ ("d" ++ "-" ++ "train" ++ ".tfrecord"), FileContent.records [])]).mpr
    (by decide)

/-- C8: `_save_as_tfrecord` fails with the assertion error iff the image
count differs from the label count, and in that case the filesystem is
untouched (the assert precedes opening the writer, so no file is created). -/
theorem save_as_tfrecord_assert (data : SplitData) (filename : String) (fs : FS) :
    ((save_as_tfrecord data filename fs).1 =
        Except.error "assert len(images) == len(labels)" ↔
      data.images.length ≠ data.labels.length) ∧
    (data.images.length ≠ data.labels.length →
      (save_as_tfrecord data filename fs).2 = fs) := by
  by_cases h : data.images.length = data.labels.length <;>
    simp [save_as_tfrecord, h]

/-- Witness for C8: a mismatched split errors and leaves the filesystem empty. -/
theorem save_as_tfrecord_assert_witness :
    (save_as_tfrecord ⟨[[1]], []⟩ "t" []).1 =
        Except.error "assert len(images) == len(labels)" ∧
    (save_as_tfrecord ⟨[[1]], []⟩ "t" []).2 = [] :=
  ⟨((save_as_tfrecord_assert ⟨[[1]], []⟩ "t" []).1).mpr (by decide),
   ((save_as_tfrecord_assert ⟨[[1]], []⟩ "t" []).2) (by decide)⟩

/-- C9: decoding an encoded image restores the original pixel array,
element-wise across `_encode_png` (round-trip identity of the lossless
encoder; `to_png` modelled from the spec). -/
theorem png_roundtrip (imgs : List RawImage) :
    (encode_png imgs).map decode_png = imgs.map some := by
  rw [encode_png_eq_map, List.map_map]
  apply List.map_congr_left
  intro img _
  exact decode_to_png img

end CreateDatasets

namespace CreateDatasets

/-! ## Claim theorems: loader structure and the count invariant -/

theorem replicate_pairwise_le (m n : Nat) :
    (List.replicate m (0 : Int) ++ List.replicate n (1 : Int)).Pairwise (· ≤ ·) := by
  rw [List.pairwise_append]
  refine ⟨List.pairwise_replicate.mpr (Or.inr le_rfl),
    List.pairwise_replicate.mpr (Or.inr le_rfl), ?_⟩
  intro a ha b hb
  rw [List.eq_of_mem_replicate ha, List.eq_of_mem_replicate hb]
  omega

theorem load_voets_counts (t0 t1 s0 s1 : List String) (f : String → RawImage) :
    ∀ p ∈ load_voets t0 t1 s0 s1 f, counts_match p.2 = true := by
  intro p hp
  rcases List.mem_cons.mp hp with h | h
  · subst h
    simp [counts_match, encode_png]
  · rcases List.mem_cons.mp h with h2 | h2
    · subst h2
      simp [counts_match, encode_png]
    · cases h2

/-- C10: the local-folder loader returns, for each split, the subfolder-0
images followed by the subfolder-1 images in listing order, labelled by k0
zeros followed by k1 ones; the label list is non-decreasing and the counts
agree by construction. -/
theorem load_voets_structure (t0 t1 s0 s1 : List String) (f : String → RawImage) :
    load_voets t0 t1 s0 s1 f =
      [("train", .split ⟨(t0.map f ++ t1.map f).map to_png,
          List.replicate t0.length (0 : Int) ++ List.replicate t1.length (1 : Int)⟩),
       ("test", .split ⟨(s0.map f ++ s1.map f).map to_png,
          List.replicate s0.length (0 : Int) ++ List.replicate s1.length (1 : Int)⟩)] ∧
    (List.replicate t0.length (0 : Int) ++ List.replicate t1.length (1 : Int)).Pairwise (· ≤ ·) ∧
    (List.replicate s0.length (0 : Int) ++ List.replicate s1.length (1 : Int)).Pairwise (· ≤ ·) ∧
    ∀ p ∈ load_voets t0 t1 s0 s1 f, counts_match p.2 = true := by
  refine ⟨?_, replicate_pairwise_le _ _, replicate_pairwise_le _ _,
    load_voets_counts t0 t1 s0 s1 f⟩
  simp [load_voets, encode_png_eq_map, List.map_append]

/-- C2 counterexample: with an empty raw unlabeled buffer (0 is divisible by
the image byte size, so the reshape succeeds), the STL-10 unlabeled split has
0 images but its label list is hardcoded to length 100000. -/
theorem stl10_unlabeled_count_mismatch :
    (((load_stl10 [] [] [] [] [] []).getD []).getD 2 ("", .auxFiles [])).1 = "unlabeled" ∧
    counts_match (((load_stl10 [] [] [] [] [] []).getD []).getD 2 ("", .auxFiles [])).2 = false := by
  have h0 : stl10_unflatten [] = some [] := by
    rw [stl10_unflatten]
    norm_num
  have hload : load_stl10 [] [] [] [] [] [] = some
      [("train", .split ⟨encode_png [], List.map u8_sub_one []⟩),
       ("test", .split ⟨encode_png [], List.map u8_sub_one []⟩),
       ("unlabeled", .split ⟨encode_png [], List.replicate 100000 (0 : Int)⟩),
       ("files", .auxFiles [("stl10_fold_indices.txt", [])])] := by
    rw [load_stl10, h0]
  rw [hload]
  refine ⟨rfl, ?_⟩
  show ((encode_png []).length == (List.replicate 100000 (0 : Int)).length) = false
  rw [List.length_replicate, show (encode_png []).length = 0 from rfl]
  rfl

/-- C2 amended: the image-count = label-count invariant holds unconditionally
for every split of the local-folder loader, and for every split of the STL-10
loader provided the raw downloaded buffers are well-formed — each label byte
paired with one 3·96·96-byte image, and the unlabeled buffer holding exactly
100000 images (its label list is hardcoded to length 100000). -/
theorem dataset_counts (t0 t1 s0 s1 : List String) (f : String → RawImage)
    (tx ty sx sy ux fold : List Nat)
    (htr : tx.length = ty.length * 27648)
    (hte : sx.length = sy.length * 27648)
    (hun : ux.length = 100000 * 27648) :
    (∀ p ∈ load_voets t0 t1 s0 s1 f, counts_match p.2 = true) ∧
    ∃ splits, load_stl10 tx ty sx sy ux fold = some splits ∧
      ∀ p ∈ splits, counts_match p.2 = true := by
  refine ⟨load_voets_counts t0 t1 s0 s1 f, ?_⟩
  have gen : ∀ m : Nat, m * 27648 / 27648 = m := fun m => Nat.mul_div_cancel m (by norm_num)
  have d1 : tx.length % 27648 = 0 := by simp [htr, Nat.mul_mod_left]
  have d2 : sx.length % 27648 = 0 := by simp [hte, Nat.mul_mod_left]
  have d3 : ux.length % 27648 = 0 := by simp [hun, Nat.mul_mod_left]
  have e1 : tx.length / 27648 = ty.length := by simp [htr, gen]
  have e2 : sx.length / 27648 = sy.length := by simp [hte, gen]
  have e3 : ux.length / 27648 = 100000 := by simp [hun, gen]
  rw [load_stl10, stl10_unflatten, if_pos d1, stl10_unflatten, if_pos d2,
    stl10_unflatten, if_pos d3]
  refine ⟨_, rfl, ?_⟩
  intro p hp
  simp only [List.mem_cons, List.not_mem_nil, or_false] at hp
  rcases hp with h | h | h | h <;> subst h
  · show ((encode_png _).length == (ty.map u8_sub_one).length) = true
    rw [encode_png_length]
    simp [e1]
  · show ((encode_png _).length == (sy.map u8_sub_one).length) = true
    rw [encode_png_length]
    simp [e2]
  · show ((encode_png _).length == (List.replicate 100000 (0 : Int)).length) = true
    rw [encode_png_length, List.length_replicate]
    simp [e3]
  · rfl

/-- Witness for C2's amended theorem: empty labelled buffers and an
all-zero unlabeled buffer of exactly 100000 images. -/
theorem dataset_counts_witness :
    (∀ p ∈ load_voets [] [] [] [] (fun _ => []), counts_match p.2 = true) ∧
    ∃ splits, load_stl10 [] [] [] [] (List.replicate (100000 * 27648) 0) [] = some splits ∧
      ∀ p ∈ splits, counts_match p.2 = true :=
  dataset_counts [] [] [] [] (fun _ => []) [] [] [] []
    (List.replicate (100000 * 27648) 0) [] (by simp) (by simp)
    (by rw [List.length_replicate])

end CreateDatasets

namespace CreateDatasets

/-! ## Claim theorems: unflatten layouts -/

theorem reshape3_getD (C H W : Nat) (flat : List Nat) (c h w : Nat)
    (hc : c < C) (hh : h < H) (hw : w < W) :
    (((reshape3 C H W flat).getD c []).getD h []).getD w 0 =
      flat.getD ((c * H + h) * W + w) 0 := by
  unfold reshape3
  rw [getD_range_map _ _ _ _ hc]
  show ((((List.range H).map fun h =>
      (List.range W).map fun w => flat.getD ((c * H + h) * W + w) 0).getD h []).getD w 0) = _
  rw [getD_range_map _ _ _ _ hh]
  show ((List.range W).map fun w => flat.getD ((c * H + h) * W + w) 0).getD w 0 = _
  rw [getD_range_map _ _ _ _ hw]

theorem transpose_231_getD (C H W : Nat) (a : List (List (List Nat))) (h w c : Nat)
    (hh : h < H) (hw : w < W) (hc : c < C) :
    (((transpose_231 C H W a).getD h []).getD w []).getD c 0 =
      ((a.getD c []).getD h []).getD w 0 := by
  unfold transpose_231
  rw [getD_range_map _ _ _ _ hh]
  show ((((List.range W).map fun w =>
      (List.range C).map fun c => ((a.getD c []).getD h []).getD w 0).getD w []).getD c 0) = _
  rw [getD_range_map _ _ _ _ hw]
  show ((List.range C).map fun c => ((a.getD c []).getD h []).getD w 0).getD c 0 = _
  rw [getD_range_map _ _ _ _ hc]

theorem transpose_321_getD (C X Y : Nat) (a : List (List (List Nat))) (y x c : Nat)
    (hy : y < Y) (hx : x < X) (hc : c < C) :
    (((transpose_321 C X Y a).getD y []).getD x []).getD c 0 =
      ((a.getD c []).getD x []).getD y 0 := by
  unfold transpose_321
  rw [getD_range_map _ _ _ _ hy]
  show ((((List.range X).map fun x =>
      (List.range C).map fun c => ((a.getD c []).getD x []).getD y 0).getD x []).getD c 0) = _
  rw [getD_range_map _ _ _ _ hx]
  show ((List.range C).map fun c => ((a.getD c []).getD x []).getD y 0).getD c 0 = _
  rw [getD_range_map _ _ _ _ hc]

/-- C4: the CIFAR-style unflatten realises channel-row-column flattening,
`out[n,h,w,c] = in[n, c*32*32 + h*32 + w]`, and the STL-style unflatten
swaps width and height, `out[n,h,w,c] = in[((n*3 + c)*96 + w)*96 + h]`. -/
theorem unflatten_layouts (rows : List (List Nat)) (buf : List Nat) (imgs : List RawImage)
    (n h w c m y x d : Nat)
    (hn : n < rows.length) (hh : h < 32) (hw : w < 32) (hc : c < 3)
    (hbuf : stl10_unflatten buf = some imgs) (hm : m < buf.length / 27648)
    (hy : y < 96) (hx : x < 96) (hd : d < 3) :
    px4 (cifar10_unflatten rows) n h w c =
      (rows.getD n []).getD (c * 32 * 32 + h * 32 + w) 0 ∧
    px4 imgs m y x d = buf.getD (((m * 3 + d) * 96 + x) * 96 + y) 0 := by
  constructor
  · unfold px4 cifar10_unflatten
    rw [getD_map_lt _ rows n [] [] hn]
    show (((transpose_231 3 32 32 (reshape3 3 32 32 (rows.getD n []))).getD h
        []).getD w []).getD c 0 = (rows.getD n []).getD (c * 32 * 32 + h * 32 + w) 0
    rw [transpose_231_getD 3 32 32 _ h w c hh hw hc,
      reshape3_getD 3 32 32 _ c h w hc hh hw]
    have e : (c * 32 + h) * 32 + w = c * 32 * 32 + h * 32 + w := by ring
    rw [e]
  · rw [stl10_unflatten] at hbuf
    by_cases hdvd : buf.length % 27648 = 0
    · rw [if_pos hdvd] at hbuf
      injection hbuf with hb
      subst hb
      unfold px4
      rw [getD_range_map _ _ _ _ hm]
      show (((transpose_321 3 96 96
          (reshape3 3 96 96 ((buf.drop (m * 27648)).take 27648))).getD y []).getD x
          []).getD d 0 = buf.getD (((m * 3 + d) * 96 + x) * 96 + y) 0
      rw [transpose_321_getD 3 96 96 _ y x d hy hx hd,
        reshape3_getD 3 96 96 _ d x y hd hx hy,
        getD_drop_take buf (m * 27648) 27648 _ (by omega)]
      have e : m * 27648 + ((d * 96 + x) * 96 + y) = ((m * 3 + d) * 96 + x) * 96 + y := by
        ring
      rw [e]
    · rw [if_neg hdvd] at hbuf
      cases hbuf

/-- Witness for C4, at index (0,0,0,0) of a one-image batch for each layout. -/
theorem unflatten_layouts_witness :
    px4 (cifar10_unflatten [[]]) 0 0 0 0 =
      (([[]] : List (List Nat)).getD 0 []).getD (0 * 32 * 32 + 0 * 32 + 0) 0 ∧
    px4 ((List.range ((List.replicate 27648 0 : List Nat).length / 27648)).map fun n =>
        transpose_321 3 96 96 (reshape3 3 96 96
          (((List.replicate 27648 0 : List Nat).drop (n * 27648)).take 27648))) 0 0 0 0 =
      (List.replicate 27648 0 : List Nat).getD (((0 * 3 + 0) * 96 + 0) * 96 + 0) 0 :=
  unflatten_layouts [[]] (List.replicate 27648 0) _ 0 0 0 0 0 0 0 0
    (by norm_num) (by norm_num) (by norm_num) (by norm_num)
    (by rw [stl10_unflatten, if_pos (by rw [List.length_replicate])])
    (by rw [List.length_replicate]; norm_num) (by norm_num) (by norm_num) (by norm_num)

end CreateDatasets

namespace CreateDatasets

/-! ## Claim theorems: registry reachability and driver idempotence -/

/-- C3 counterexample: none of the six downloadable datasets is a key of
`CONFIGS` (only `voets` is registered; the other entries are commented out),
and running the driver requesting `svhn` invokes no loader. -/
theorem configs_missing_datasets :
    (["svhn", "cifar10", "cifar100", "stl10", "mnist", "fashion_mnist"].all
      fun n => !((CONFIGS []).map Prod.fst).contains n) = true ∧
    (main_model ["svhn"] (CONFIGS []) []).1 = [] := by
  exact ⟨rfl, rfl⟩

/-- C3 amended: the configured registry holds exactly the `voets` entry, so
requesting any other dataset name (in particular svhn, cifar10, cifar100,
stl10, mnist or fashion-mnist) invokes no loader, while requesting `voets`
with its outputs absent does invoke the voets loader. -/
theorem configs_only_voets (vs : List (String × LoaderOut)) (name : String) (fs : FS)
    (h : name ≠ "voets") :
    (CONFIGS vs).map Prod.fst = ["voets"] ∧
    (main_model [name] (CONFIGS vs) fs).1 = [] ∧
    (main_model ["voets"] (CONFIGS vs) []).1 = ["voets"] := by
  refine ⟨rfl, ?_, ?_⟩
  · rw [main_model]
    have hne : ¬ ("voets" ∈ [name]) := by
      simp only [List.mem_singleton]
      exact fun e => h e.symm
    simp [CONFIGS, hne]
    rw [if_neg (fun e => h e.symm)]
  · rw [main_model]
    simp [CONFIGS, is_installed, fsExists]

/-- Witness for C3's amended theorem. -/
theorem configs_only_voets_witness :
    (CONFIGS []).map Prod.fst = ["voets"] ∧
    (main_model ["svhn"] (CONFIGS []) []).1 = [] ∧
    (main_model ["voets"] (CONFIGS []) []).1 = ["voets"] :=
  configs_only_voets [] "svhn" [] (by decide)

theorem fsExists_write (fs : FS) (p q : String) (c : FileContent)
    (h : fsExists fs q = true) : fsExists (fsWrite fs p c) q = true := by
  simp only [fsExists, fsWrite, List.any_cons]
  rw [fsExists] at h
  rw [h]
  exact Bool.or_true _

theorem fsExists_write_self (fs : FS) (p : String) (c : FileContent) :
    fsExists (fsWrite fs p c) p = true := by
  simp [fsExists, fsWrite]

theorem fsExists_auxfold (l : List (String × List Nat)) (fs : FS) (q : String)
    (h : fsExists fs q = true) :
    fsExists (l.foldl (fun acc fd =>
      fsWrite acc (DATA_DIR ++ "/" ++ fd.1) (.bytes fd.2)) fs) q = true := by
  induction l generalizing fs with
  | nil => exact h
  | cons a l ih => exact ih _ (fsExists_write _ _ _ _ h)

theorem fsExists_process (name : String) (fs : FS) (sp : String × LoaderOut) (q : String)
    (h : fsExists fs q = true) : fsExists (process_split name fs sp) q = true := by
  rw [process_split]
  by_cases h1 : sp.1 = "readme"
  · rw [if_pos h1]
    cases sp.2 with
    | readmeText t => exact fsExists_write _ _ _ _ h
    | split d => exact h
    | auxFiles l => exact h
  · rw [if_neg h1]
    by_cases h2 : sp.1 = "files"
    · rw [if_pos h2]
      cases sp.2 with
      | auxFiles l => exact fsExists_auxfold _ _ _ h
      | split d => exact h
      | readmeText t => exact h
    · rw [if_neg h2]
      cases sp.2 with
      | split d =>
        simp only [save_as_tfrecord]
        by_cases h3 : d.images.length = d.labels.length
        · rw [if_pos h3]
          exact fsExists_write _ _ _ _ h
        · rw [if_neg h3]
          exact h
      | readmeText t => exact h
      | auxFiles l => exact h

theorem fsExists_foldl_process (name : String) (l : List (String × LoaderOut))
    (fs : FS) (q : String) (h : fsExists fs q = true) :
    fsExists (l.foldl (process_split name) fs) q = true := by
  induction l generalizing fs with
  | nil => exact h
  | cons a l ih => exact ih _ (fsExists_process _ _ _ _ h)

theorem fsExists_process_save (name s : String) (d : SplitData) (fs : FS)
    (hs1 : s ≠ "readme") (hs2 : s ≠ "files")
    (hlen : d.images.length = d.labels.length) :
    fsExists (process_split name fs (s, .split d))
      (DATA_DIR ++ "/" ++ (name ++ "-" ++ s ++ ".tfrecord")) = true := by
  rw [process_split]
  rw [if_neg hs1, if_neg hs2]
  simp only [save_as_tfrecord]
  rw [if_pos hlen]
  exact fsExists_write_self _ _ _

theorem fsExists_foldl_create (name : String) (l : List (String × LoaderOut)) (fs : FS)
    (s : String) (d : SplitData) (hmem : (s, LoaderOut.split d) ∈ l)
    (hs1 : s ≠ "readme") (hs2 : s ≠ "files")
    (hlen : d.images.length = d.labels.length) :
    fsExists (l.foldl (process_split name) fs)
      (DATA_DIR ++ "/" ++ (name ++ "-" ++ s ++ ".tfrecord")) = true := by
  induction hmem generalizing fs with
  | head rest =>
    rw [List.foldl_cons]
    exact fsExists_foldl_process _ _ _ _ (fsExists_process_save name s d fs hs1 hs2 hlen)
  | tail b hmem ih => exact ih _

theorem is_installed_after (name : String) (cs : List String)
    (l : List (String × LoaderOut)) (fs : FS)
    (hcov : ∀ s ∈ cs, s ≠ "readme" ∧ s ≠ "files" ∧
      ∃ d, (s, LoaderOut.split d) ∈ l ∧ d.images.length = d.labels.length) :
    is_installed name cs (l.foldl (process_split name) fs) = true := by
  rw [is_installed_eq]
  intro s hs
  obtain ⟨h1, h2, d, hm, hlen⟩ := hcov s hs
  exact fsExists_foldl_create name l fs s d hm h1 h2 hlen

/-- C7: with every expected output file of the requested dataset produced by
the first driver run (each expected split is returned by the loader with
matching counts and is not one of the special `readme` or `files` keys), a
second driver run with the same requested name invokes no loader. -/
theorem driver_second_run_skips (name : String) (cfg : Config) (fs : FS)
    (hcov : ∀ s ∈ cfg.checksums, s ≠ "readme" ∧ s ≠ "files" ∧
      ∃ d, (s, LoaderOut.split d) ∈ cfg.splits ∧ d.images.length = d.labels.length) :
    (main_model [name] [(name, cfg)] (main_model [name] [(name, cfg)] fs).2).1 = [] := by
  have hmem : name ∈ [name] := List.mem_singleton.mpr rfl
  have step : ∀ F : FS, main_model [name] [(name, cfg)] F =
      if is_installed name cfg.checksums F then ([], F)
      else ([name], cfg.splits.foldl (process_split name) F) := by
    intro F
    rw [main_model]
    by_cases hI : is_installed name cfg.checksums F
    · simp [hmem, hI]
    · simp [hmem, hI]
  rw [step ((main_model [name] [(name, cfg)] fs).2), step fs]
  by_cases hI : is_installed name cfg.checksums fs
  · rw [if_pos hI]
    rw [if_pos hI]
  · rw [if_neg hI]
    rw [if_pos (is_installed_after name cfg.checksums cfg.splits fs hcov)]

/-- Witness for C7, on a voets-shaped configuration starting from an empty
filesystem. -/
theorem driver_second_run_skips_witness :
    (main_model ["voets"]
      [("voets", { checksums := ["train", "test"],
                   splits := [("train", .split ⟨[[1]], [0]⟩), ("test", .split ⟨[], []⟩)] })]
      (main_model ["voets"]
        [("voets", { checksums := ["train", "test"],
                     splits := [("train", .split ⟨[[1]], [0]⟩), ("test", .split ⟨[], []⟩)] })]
        []).2).1 = [] :=
  driver_second_run_skips "voets"
    { checksums := ["train", "test"],
      splits := [("train", .split ⟨[[1]], [0]⟩), ("test", .split ⟨[], []⟩)] } []
    (by
      intro s hs
      rcases List.mem_cons.mp hs with h | h
      · subst h
        exact ⟨by decide, by decide, ⟨[[1]], [0]⟩, by decide, by decide⟩
      · rcases List.mem_cons.mp h with h2 | h2
        · subst h2
          exact ⟨by decide, by decide, ⟨[], []⟩, by decide, by decide⟩
        · cases h2)

end CreateDatasets
